/-
  Verification of the sampling-and-publication engine of the
  linux_mqtt_ha repository (src/mqtt_linux_monitoring.py).

  The Python source is shallowly embedded: each method that a claim
  touches becomes an executable Lean definition over explicit state.
  External effects (subprocess output, /sys reads, the filesystem) are
  passed in as parameters standing for the data the call returned.
  Machine floats of the source are modelled as exact rationals; Python
  `round` (banker's rounding) is modelled exactly on rationals.
-/
import Mathlib

namespace LinuxMqttHa

/-! ## Basic string helpers (character-level, kernel-evaluable)

    Python string primitives used by the source, re-implemented on
    `List Char` so that `decide`/`rfl` can evaluate them. -/

/-- Python `str.replace(old, new)` for a one-character pattern:
    character-wise substitution. All `replace` calls in the source use
    single-character patterns. -/
def pyReplaceChar (c r : Char) (s : String) : String :=
  String.mk (s.data.map (fun x => if x = c then r else x))

/-- Python `str.strip()`: drop whitespace from both ends. -/
def pyStrip (s : String) : String :=
  String.mk (((s.data.dropWhile Char.isWhitespace).reverse.dropWhile Char.isWhitespace).reverse)

/-- `os.path.basename`: the part after the last slash. -/
def basename (p : String) : String :=
  String.mk ((p.data.reverse.takeWhile (fun c => c ≠ '/')).reverse)

/-- Boolean prefix test on char lists (our own, to keep proofs self-contained). -/
def isPre : List Char → List Char → Bool
  | [], _ => true
  | _ :: _, [] => false
  | a :: as, b :: bs => a = b && isPre as bs

/-- `str.startswith` / anchored `re.match` of a literal: prefix test. -/
def strStartsWith (s pre : String) : Bool := isPre pre.data s.data

/-! ## Python `round` on rationals

    Python 3 `round(x, nd)` rounds half to even (banker's rounding). -/

/-- Round a rational to the nearest integer, ties to even. -/
def bankersRound (x : Rat) : Int :=
  let f : Int := Int.floor x
  let frac : Rat := x - (f : Rat)
  if frac < 1/2 then f
  else if 1/2 < frac then f + 1
  else if f % 2 = 0 then f else f + 1

/-- Python `round(x, nd)` for `nd` decimal digits. -/
def pyRound (nd : Nat) (x : Rat) : Rat :=
  ((bankersRound (x * ((10 : Rat) ^ nd)) : Int) : Rat) / ((10 : Rat) ^ nd)

/-! ## ProbeRunner: `run_command` and `run_command_accept_error`
    (src/mqtt_linux_monitoring.py lines 184-203)

    The outcome of `subprocess.run` is passed in explicitly.  Note that
    `FileNotFoundError` (raised when the executable is missing) is NOT a
    `subprocess.SubprocessError`, so the `except` clause at line 189 /
    201 does not catch it: it propagates to the caller.  We model the
    call result as `Except`, where `.error` is an uncaught exception. -/

/-- Possible outcomes of one `subprocess.run` invocation. -/
inductive CmdOutcome where
  | completed (returncode : Int) (stdout stderr : String)
  | timedOut                                   -- subprocess.TimeoutExpired
  | subprocessErr                              -- other subprocess.SubprocessError
  | toolMissing                                -- FileNotFoundError: executable absent
  deriving DecidableEq

/-- Python exceptions that can escape the probe runner. -/
inductive PyExn where
  | fileNotFoundError
  deriving DecidableEq

/-- `run_command` (lines 184-190): stdout stripped on exit 0, else `""`;
    `TimeoutExpired`/`SubprocessError` are swallowed into `""`;
    `FileNotFoundError` is not caught and propagates. -/
def runCommand (o : CmdOutcome) : Except PyExn String :=
  match o with
  | .completed rc out _ => .ok (if rc = 0 then pyStrip out else "")
  | .timedOut => .ok ""
  | .subprocessErr => .ok ""
  | .toolMissing => .error .fileNotFoundError

/-- `run_command_accept_error` (lines 191-203): stripped stdout if
    nonempty, else stripped stderr if nonempty, else `""`; the return
    code is ignored entirely; same exception behaviour as above. -/
def runCommandAcceptError (o : CmdOutcome) : Except PyExn String :=
  match o with
  | .completed _ out err =>
      .ok (if pyStrip out ≠ "" then pyStrip out
           else if pyStrip err ≠ "" then pyStrip err else "")
  | .timedOut => .ok ""
  | .subprocessErr => .ok ""
  | .toolMissing => .error .fileNotFoundError

/-! ## Percentage computations (C8)

    `get_memory_usage` lines 413-420 and `update_disk_usage` line 528. -/

/-- Memory usage percent before rounding (line 414):
    `(used / total * 100.0) if total > 0 else 0.0`. -/
def memUsagePercentRaw (used total : Int) : Rat :=
  if total > 0 then (used : Rat) / (total : Rat) * 100 else 0

/-- The `mem_usage` field (line 418): raw percent rounded to 1 decimal. -/
def memUsageField (used total : Int) : Rat :=
  pyRound 1 (memUsagePercentRaw used total)

/-- Swap usage percent before rounding (line 415), same guarded formula. -/
def swapUsagePercentRaw (used total : Int) : Rat :=
  if total > 0 then (used : Rat) / (total : Rat) * 100 else 0

/-- The `swap_usage` field (line 420). -/
def swapUsageField (used total : Int) : Rat :=
  pyRound 1 (swapUsagePercentRaw used total)

/-- `update_disk_usage` line 528:
    `float(round(fsused/(fsused+fsavail)*100, 2)) if fsused > 0 or fsavail > 0 else 0.0`.
    (Rat division is total; the Python expression divides only when the
    guard holds, and with non-negative lsblk sizes the denominator is
    then nonzero.) -/
def diskUsagePercent (fsused fsavail : Int) : Rat :=
  if fsused > 0 ∨ fsavail > 0
  then pyRound 2 ((fsused : Rat) / ((fsused : Rat) + (fsavail : Rat)) * 100)
  else 0

/-! ## Root-device partition-suffix stripping (C9)

    `run` line 1135: `re.sub(r'(p\d+|\d+)$', '', self.root_block)`.
    The regex removes, at the end of the string, either `p` followed by
    digits or a digit run.  With leftmost-match semantics this is: take
    the maximal trailing digit run; if it is nonempty and preceded by
    `p`, remove the `p` as well. -/
def stripPartSuffix (s : String) : String :=
  let rev := s.data.reverse
  let ds := rev.takeWhile Char.isDigit
  if ds.isEmpty then s
  else
    match rev.drop ds.length with
    | 'p' :: rest => String.mk rest.reverse
    | rest => String.mk rest.reverse

/-! ## JSON values and tier payload batches

    The tier payloads (`fast_payload`, `slow_payload`, ...) are Python
    dicts from string keys to JSON-serialisable values.  We model a
    dict as an association list with Python-dict assignment semantics:
    an existing key is updated in place, a new key is appended. -/

/-- A JSON-like value as built by the source. -/
inductive JVal where
  | null
  | num (q : Rat)
  | int (i : Int)
  | str (s : String)
  | boolean (b : Bool)
  | arr (xs : List JVal)
  | obj (fields : List (String × JVal))

/-- A tier payload batch: insertion-ordered string-keyed dict. -/
abbrev Payload := List (String × JVal)

/-- Python dict assignment `d[k] = v`. -/
def setKey : List (String × JVal) → String → JVal → List (String × JVal)
  | [], k, v => [(k, v)]
  | (k', v') :: rest, k, v =>
      if k' = k then (k, v) :: rest else (k', v') :: setKey rest k v

/-- Python dict lookup `d.get(k)`. -/
def getKey : List (String × JVal) → String → Option JVal
  | [], _ => none
  | (k', v') :: rest, k => if k' = k then some v' else getKey rest k

/-- String-keyed lookup with a string codomain (for the cached maps
    `disk_serial_mapping`, `block_to_serial`, `disk_path_mapping`). -/
def getS : List (String × String) → String → Option String
  | [], _ => none
  | (k', v') :: rest, k => if k' = k then some v' else getS rest k

/-- Python dict assignment for string-valued maps. -/
def setS : List (String × String) → String → String → List (String × String)
  | [], k, v => [(k, v)]
  | (k', v') :: rest, k, v =>
      if k' = k then (k, v) :: rest else (k', v') :: setS rest k v

/-- The key list of a dict. -/
def keysOf {V : Type} (m : List (String × V)) : List String := m.map Prod.fst

/-! ## Configuration

    The environment-derived configuration fields consulted by the
    embedded methods (`__init__`, lines 47-92).  The four per-device
    ignore lists for temp/status/usage/info are loaded at lines 64-74;
    which of them the engine actually consults is exactly what claim C7
    is about, so they are all carried here. -/

structure Config where
  deviceId : String
  ignoreSensors : List String
  ignoreDisksForSmart : List String
  ignoreDisksForTemp : List String
  ignoreDisksForStatus : List String
  ignoreDisksForUsage : List String
  ignoreDisksForInfo : List String
  ifsName : List String
  dryRun : Bool

/-! ## Key sanitisation

    `setup_discovery` line 860: `serial.replace('-','_').replace(' ','_')`.
    `setup_discovery` line 963: interface names sanitised with
    `.replace('-','_').replace(' ','_').replace('@','_')`.
    `update_network_sensors` line 1056: `ifname.replace('.', '_')`. -/

/-- `safe_serial` (line 860). -/
def safeSerial (serial : String) : String :=
  pyReplaceChar ' ' '_' (pyReplaceChar '-' '_' serial)

/-- `safe_ifname` as computed inside `setup_discovery` (line 963). -/
def safeIfnameDiscovery (ifname : String) : String :=
  pyReplaceChar '@' '_' (pyReplaceChar ' ' '_' (pyReplaceChar '-' '_' ifname))

/-- The payload key addressed by the discovery value templates for an
    interface (lines 969, 981, 993, 1006): `net_stats_<safe_ifname>`. -/
def discoveryNetStatsKey (ifname : String) : String :=
  "net_stats_" ++ safeIfnameDiscovery ifname

/-- The payload key actually written by `update_network_sensors`
    (lines 1056-1057): `net_stats_<ifname.replace('.', '_')>`. -/
def publishNetStatsKey (ifname : String) : String :=
  "net_stats_" ++ pyReplaceChar '.' '_' ifname

/-! ## Discovery document components (`setup_discovery`, lines 746-1011)

    We embed the `cmps` dictionary as the ordered list of component ids
    it registers; this is what the claims about registration need.  The
    display names, icons and units do not influence any claim. -/

/-- Host-level components (lines 763-855), in source order. -/
def hostComponents (cfg : Config) : List String :=
  (if "monitoring" ∈ cfg.ignoreSensors then [] else [cfg.deviceId ++ "_monitoring"]) ++
  (if "last_boot" ∈ cfg.ignoreSensors then [] else [cfg.deviceId ++ "_last_boot"]) ++
  (if "cpu_usage" ∈ cfg.ignoreSensors then [] else [cfg.deviceId ++ "_cpu_usage"]) ++
  (if "cpu_freq" ∈ cfg.ignoreSensors then [] else [cfg.deviceId ++ "_cpu_freq"]) ++
  (if "cpu_temp" ∈ cfg.ignoreSensors then [] else [cfg.deviceId ++ "_cpu_temp"]) ++
  (if "mem_usage" ∈ cfg.ignoreSensors then [] else
    (if "ram_usage" ∈ cfg.ignoreSensors then [] else [cfg.deviceId ++ "_memory_usage"]) ++
    (if "swap_usage" ∈ cfg.ignoreSensors then [] else [cfg.deviceId ++ "_swap_usage"]))

/-- Disk components registered for one serial (lines 858-959).  Note
    the nesting: the SMART ignore-list guards the SMART, temperature
    and info entities; the load/usage/status entities are guarded only
    by the family-level `ignore_sensors` list — no per-device ignore
    list is consulted for them. -/
def diskComponentsFor (cfg : Config) (serial : String) : List String :=
  let ss := safeSerial serial
  (if serial ∈ cfg.ignoreDisksForSmart then [] else
    (if "disk_smart" ∈ cfg.ignoreSensors then [] else
      [cfg.deviceId ++ "_disk_smart_" ++ ss, cfg.deviceId ++ "_disk_temp_" ++ ss]) ++
    (if "disk_info" ∈ cfg.ignoreSensors then [] else
      [cfg.deviceId ++ "_disk_info_" ++ ss])) ++
  (if "disk_load" ∈ cfg.ignoreSensors then [] else
    [cfg.deviceId ++ "_disk_write_" ++ ss,
     cfg.deviceId ++ "_disk_read_" ++ ss,
     cfg.deviceId ++ "_disk_util_" ++ ss]) ++
  (if "disk_usage" ∈ cfg.ignoreSensors then [] else
    [cfg.deviceId ++ "_disk_usage_" ++ ss]) ++
  (if "disk_status" ∈ cfg.ignoreSensors then [] else
    [cfg.deviceId ++ "_disk_status_" ++ ss])

/-- All disk components: the loop `for serial in self.disk_serial_mapping`
    (line 858). -/
def diskComponents (cfg : Config) (mapping : List (String × String)) : List String :=
  (mapping.map Prod.fst).flatMap (diskComponentsFor cfg)

/-- Network components for one interface (lines 962-1009). -/
def netComponentsFor (cfg : Config) (ifname : String) : List String :=
  let si := safeIfnameDiscovery ifname
  (if "net_rx" ∈ cfg.ignoreSensors then [] else
    [cfg.deviceId ++ "_net_stats_" ++ si ++ "_rx"]) ++
  (if "net_tx" ∈ cfg.ignoreSensors then [] else
    [cfg.deviceId ++ "_net_stats_" ++ si ++ "_tx"]) ++
  (if "net_link_speed" ∈ cfg.ignoreSensors then [] else
    [cfg.deviceId ++ "_net_stats_" ++ si ++ "_link_speed"]) ++
  (if "net_duplex" ∈ cfg.ignoreSensors then [] else
    [cfg.deviceId ++ "_net_stats_" ++ si ++ "_duplex"])

/-- All network components (guard at line 960). -/
def netComponents (cfg : Config) : List String :=
  if "net_stats" ∈ cfg.ignoreSensors then []
  else cfg.ifsName.flatMap (netComponentsFor cfg)

/-- The component-id keys of the discovery document `cmps` dict, in
    registration order: host entities, then the disk loop, then the
    network loop. -/
def discoveryCmpKeys (cfg : Config) (mapping : List (String × String)) : List String :=
  hostComponents cfg ++ diskComponents cfg mapping ++ netComponents cfg

/-! ## Fast-tier metric extractors

    Each `update_*` method mutates `self.fast_payload`; we embed each
    as `Payload → Payload`, with the data the probe returned passed in
    explicitly (`none` = empty output or structurally unparseable
    output, the two early-return paths). -/

/-- The post-parse result of the iostat probe: `cpu_data` (line 220)
    and the per-device `disk_data` dict (lines 223-231). -/
structure IostatParsed where
  cpuAvg : JVal
  diskData : List (String × JVal)

/-- One step of the disk loop of `update_iostat_data` (lines 238-246). -/
def iostatStep (diskData : List (String × JVal)) (acc : Payload) (e : String × String) :
    Payload :=
  if e.2 = "" then acc
  else
    match getKey diskData (basename e.2) with
    | some io => setKey acc ("disk_io_" ++ e.1) io
    | none => acc

/-- `update_iostat_data` (lines 205-246): on empty output or a JSON
    parse error the method returns with the payload untouched;
    otherwise it assigns `cpu_avg` and one `disk_io_<serial>` entry per
    mapped disk whose device name appears in the iostat report. -/
def updateIostatData (parsed : Option IostatParsed)
    (diskSerialMapping : List (String × String)) (fast : Payload) : Payload :=
  match parsed with
  | none => fast
  | some d => (diskSerialMapping).foldl (iostatStep d.diskData) (setKey fast "cpu_avg" d.cpuAvg)

/-- `update_cpu_freq` (lines 344-368): always assigns `cpu_freq`; the
    per-core frequencies read from sysfs are passed in (already
    converted to MHz ints, `0` entries for unreadable cores).
    `int(sum/len)` truncates toward zero, i.e. `Int.div`. -/
def updateCpuFreq (coresFreq : List Int) (fast : Payload) : Payload :=
  if coresFreq ≠ [] then
    setKey fast "cpu_freq" (JVal.obj
      [("avg_freq", .int (Int.tdiv (coresFreq.foldl (· + ·) 0) (coresFreq.length : Int))),
       ("attrs", .obj [("cores", .arr (coresFreq.map .int)),
                       ("count", .int (coresFreq.length : Int))])])
  else
    setKey fast "cpu_freq" (JVal.obj
      [("avg_freq", .int 0),
       ("attrs", .obj [("cores", .arr []), ("count", .int 0)])])

/-- `update_cpu_temperature` (lines 248-343): every terminal branch —
    each sensor match, the sysfs fallback and the final error default —
    assigns `fast_payload['cpu_temp']` and nothing else; the selected
    value is passed in, since no claim depends on the branch logic. -/
def updateCpuTemperature (v : JVal) (fast : Payload) : Payload :=
  setKey fast "cpu_temp" v

/-- One step of the network loop of `update_network_sensors`
    (lines 1033-1070): a missing interface or a read error skips the
    interface (`none`), otherwise `net_stats_<ifname.replace('.','_')>`
    is assigned. -/
def netStep (readings : String → Option JVal) (acc : Payload) (ifname : String) : Payload :=
  match readings ifname with
  | none => acc
  | some v => setKey acc (publishNetStatsKey ifname) v

/-- `update_network_sensors` (lines 1029-1070). -/
def updateNetworkSensors (readings : String → Option JVal) (ifsName : List String)
    (fast : Payload) : Payload :=
  ifsName.foldl (netStep readings) fast

/-- One parsed `lsblk -o NAME,SIZE,FSUSED,FSAVAIL,...` block entry
    (lines 518-542); the integer fields are the post-`safe_int`
    values. -/
structure FsBlock where
  name : String
  fsused : Int
  fsavail : Int
  fssize : Int
  mountpoint : String
  fstype : String
  size : String

/-- The value assigned for one block (lines 531-542). -/
def diskUsageVal (b : FsBlock) : JVal :=
  JVal.obj
    [("usage_percent", .num (diskUsagePercent b.fsused b.fsavail)),
     ("attrs", .obj
       [("mount_point", .str b.mountpoint), ("total", .int b.fssize),
        ("used", .int b.fsused), ("free", .int b.fsavail),
        ("fstype", .str b.fstype), ("device_name", .str b.name),
        ("total_size", .str b.size)])]

/-- One step of the block loop of `update_disk_usage` (lines 518-542):
    the serial is looked up in `block_to_serial` with default
    `"unknown"` (line 530). -/
def diskUsageStep (blockToSerial : List (String × String)) (acc : Payload) (b : FsBlock) :
    Payload :=
  setKey acc ("disk_usage_" ++ ((getS blockToSerial ("/dev/" ++ b.name)).getD "unknown"))
    (diskUsageVal b)

/-- `update_disk_usage` (lines 508-545): a JSON parse failure (which
    includes empty output) leaves the payload untouched. -/
def updateDiskUsage (parsed : Option (List FsBlock))
    (blockToSerial : List (String × String)) (fast : Payload) : Payload :=
  match parsed with
  | none => fast
  | some blocks => blocks.foldl (diskUsageStep blockToSerial) fast

/-- One step of the hdparm report loop of `update_disk_status`
    (lines 493-505): each parsed (device, state) pair assigns
    `disk_status_<serial>` with the serial looked up in
    `disk_path_mapping`, default `"unknown"` (line 503). -/
def diskStatusStep (diskPathMapping : List (String × String)) (acc : Payload)
    (e : String × String) : Payload :=
  setKey acc ("disk_status_" ++ ((getS diskPathMapping e.1).getD "unknown"))
    (JVal.obj [("status", .str e.2)])

/-- `update_disk_status` (lines 484-506): returns untouched when there
    are no known disk paths (line 487) or no output (line 491);
    `parsed` is the list of (device-header, drive-state) pairs the
    line loop associates. -/
def updateDiskStatus (diskPathMapping : List (String × String))
    (parsed : Option (List (String × String))) (fast : Payload) : Payload :=
  if diskPathMapping = [] then fast
  else
    match parsed with
    | none => fast
    | some entries => entries.foldl (diskStatusStep diskPathMapping) fast

/-! ## Tier publish batch construction -/

/-- The probe data consumed by one fast cycle, passed in explicitly. -/
structure FastInputs where
  cpuTempVal : JVal
  memVal : JVal
  iostat : Option IostatParsed
  coresFreq : List Int
  netReadings : String → Option JVal
  lsblkFs : Option (List FsBlock)
  hdparm : Option (List (String × String))
  scriptVal : JVal

/-- `publish_fast_sensors` (lines 1081-1115): the fast payload after
    all fast-tier extractors ran, in source order. -/
def publishFastSensors (cfg : Config) (inp : FastInputs)
    (diskSerialMapping blockToSerial diskPathMapping : List (String × String))
    (fast : Payload) : Payload :=
  let fast := if "cpu_temp" ∈ cfg.ignoreSensors then fast
              else updateCpuTemperature inp.cpuTempVal fast
  let fast := if "mem_usage" ∈ cfg.ignoreSensors then fast
              else setKey fast "mem_usage" inp.memVal
  let fast := updateIostatData inp.iostat diskSerialMapping fast
  let fast := updateCpuFreq inp.coresFreq fast
  let fast := updateNetworkSensors inp.netReadings cfg.ifsName fast
  let fast := updateDiskUsage inp.lsblkFs blockToSerial fast
  updateDiskStatus diskPathMapping inp.hdparm fast

/-- One step of the SMART loop of `publish_slow_sensors`
    (lines 1076-1079): nested guards — serial not in the SMART
    ignore-list, family not ignored. -/
def slowStep (cfg : Config) (smartVals : String → JVal) (acc : Payload)
    (e : String × String) : Payload :=
  if e.1 ∉ cfg.ignoreDisksForSmart ∧ "disk_smart" ∉ cfg.ignoreSensors then
    setKey acc ("disk_smart_" ++ e.1) (smartVals e.2)
  else acc

/-- `publish_slow_sensors` (lines 1072-1080): the slow payload after
    the SMART loop; `smartVals path` is what `get_disk_smart(path)`
    returned. -/
def publishSlowSensors (cfg : Config) (smartVals : String → JVal)
    (diskSerialMapping : List (String × String)) (slow : Payload) : Payload :=
  diskSerialMapping.foldl (slowStep cfg smartVals) slow

/-! ## DeviceInventory: `update_disk_mapping` (lines 1171-1242)

    The externally visible actions of a cycle (MQTT publishes, the
    discovery settling delay) are recorded as an event trace so that
    the temporal claims C2/C3/C5 can be stated as trace properties. -/

/-- Externally visible actions, in program order. -/
inductive Ev where
  | discovery (cmpKeys : List String)   -- setup_discovery's retained publish (line 1011)
  | settleSleep (secs : Nat)            -- time.sleep(5) (line 1232)
  | diskInfoPublish                     -- publish_disk_info (line 1234)
  | fastPublish (payload : Payload)     -- mqtt_publish(self.fast_topic, ...) (line 1115)
  | slowPublish (payload : Payload)     -- mqtt_publish(self.slow_topic, ...) (line 1080)

/-- Recogniser for discovery events. -/
def isDiscoveryEv : Ev → Bool
  | .discovery _ => true
  | _ => false

/-- Recogniser for the settling delay. -/
def isSettleEv : Ev → Bool
  | .settleSleep _ => true
  | _ => false

/-- Recogniser for fast-tier state publishes. -/
def isFastPublishEv : Ev → Bool
  | .fastPublish _ => true
  | _ => false

/-- Number of events satisfying `p`. -/
def countEv (p : Ev → Bool) : List Ev → Nat
  | [] => 0
  | e :: es => (if p e then 1 else 0) + countEv p es

/-- Index of the first event satisfying `p`, if any. -/
def firstIdx (p : Ev → Bool) : List Ev → Option Nat
  | [] => none
  | e :: es => if p e then some 0 else (firstIdx p es).map (· + 1)

/-- One entry of the parsed `lsblk -d ... -J --tree` topology scan
    (lines 1185-1190). -/
structure LsblkDev where
  name : String
  serial : String
  tran : String
  size : String
  model : String

/-- The three possible shapes of the topology probe result:
    empty output (early return, line 1176), JSON parse failure
    (lines 1240-1242, after `block_to_serial` was already cleared at
    line 1178), or a parsed device list. -/
inductive ScanResult where
  | noOutput
  | parseFailed
  | parsed (devs : List LsblkDev)

/-- The device filter of line 1196: the path exists on the filesystem
    and matches `^/dev/(sd|nvme|hd|mmc)`. -/
def devAccepted (pathExists : String → Bool) (diskPath : String) : Bool :=
  pathExists diskPath &&
    (strStartsWith diskPath "/dev/sd" || strStartsWith diskPath "/dev/nvme" ||
     strStartsWith diskPath "/dev/hd" || strStartsWith diskPath "/dev/mmc")

/-- The device loop of lines 1185-1204: builds `new_mapping`
    (serial → path) and `disk_path_mapping` (path → serial) in one
    pass. -/
def scanFold (pathExists : String → Bool) (devs : List LsblkDev) :
    (List (String × String)) × (List (String × String)) :=
  devs.foldl
    (fun acc d =>
      let diskPath := "/dev/" ++ d.name
      if devAccepted pathExists diskPath then
        (setS acc.1 d.serial diskPath, setS acc.2 diskPath d.serial)
      else acc)
    ([], [])

/-- `added_serials = new_serials - old_serials` (line 1210), as the
    list filter Python's set difference induces on the new key list. -/
def addedSerials (ns os : List String) : List String :=
  ns.filter (fun s => decide (s ∉ os))

/-- `removed_serials = old_serials - new_serials` (line 1211). -/
def removedSerials (ns os : List String) : List String :=
  os.filter (fun s => decide (s ∉ ns))

/-- The block-path derivation of lines 1221-1226: the root disk maps to
    the original mounted root source; NVMe/MMC devices get `p1`
    appended, others get `1`. -/
def buildBlockToSerial (mapping : List (String × String)) (rootDisk rootBlock : String) :
    List (String × String) :=
  mapping.foldl
    (fun acc e =>
      let blockPath :=
        if e.2 = rootDisk then rootBlock
        else if strStartsWith e.2 "/dev/nvme" || strStartsWith e.2 "/dev/mmc" then e.2 ++ "p1"
        else e.2 ++ "1"
      setS acc blockPath e.1)
    []

/-- The mutable monitor state the embedded methods touch. -/
structure MonState where
  diskSerialMapping : List (String × String)
  blockToSerial : List (String × String)
  diskPathMapping : List (String × String)
  fastPayload : Payload
  slowPayload : Payload
  rootDisk : String
  rootBlock : String

/-- `update_disk_mapping` (lines 1171-1242).  On a parsed scan the new
    mapping and path mapping are built; if the serial set changed
    (`if added_serials or removed_serials`, line 1217) the mapping is
    replaced, `block_to_serial` is rebuilt, discovery is republished,
    the settling delay runs (unless dry-run, lines 1230-1232) and the
    disk info document is published; otherwise nothing is published
    and `block_to_serial` stays cleared (line 1178). -/
def updateDiskMapping (cfg : Config) (scan : ScanResult) (pathExists : String → Bool)
    (st : MonState) : MonState × List Ev :=
  match scan with
  | .noOutput => (st, [])
  | .parseFailed => ({ st with blockToSerial := [] }, [])
  | .parsed devs =>
    let scanned := scanFold pathExists devs
    let newMapping := scanned.1
    let newPathMapping := scanned.2
    let os := keysOf st.diskSerialMapping
    let ns := keysOf newMapping
    if addedSerials ns os ≠ [] ∨ removedSerials ns os ≠ [] then
      ({ st with diskSerialMapping := newMapping,
                 diskPathMapping := newPathMapping,
                 blockToSerial := buildBlockToSerial newMapping st.rootDisk st.rootBlock },
       .discovery (discoveryCmpKeys cfg newMapping)
         :: (if cfg.dryRun then [] else [.settleSleep 5]) ++ [.diskInfoPublish])
    else
      ({ st with blockToSerial := [], diskPathMapping := newPathMapping }, [])

/-- The slow-tier publish step of the main loop (lines 1165-1167). -/
def publishSlowStep (cfg : Config) (smartVals : String → JVal) (st : MonState) :
    MonState × List Ev :=
  let p := publishSlowSensors cfg smartVals st.diskSerialMapping st.slowPayload
  ({ st with slowPayload := p }, [.slowPublish p])

/-- The fast-tier publish step (line 1169 → `publish_fast_sensors`). -/
def publishFastStep (cfg : Config) (inp : FastInputs) (st : MonState) :
    MonState × List Ev :=
  let p := publishFastSensors cfg inp st.diskSerialMapping st.blockToSerial
             st.diskPathMapping st.fastPayload
  ({ st with fastPayload := p }, [.fastPublish p])

/-- One iteration of the main monitoring loop (lines 1157-1170):
    embed the self-observation `script` entry, publish the slow batch
    when due, publish the fast batch, then rescan the inventory. -/
def loopIter (cfg : Config) (slowDue : Bool) (inp : FastInputs)
    (smartVals : String → JVal) (scan : ScanResult) (pathExists : String → Bool)
    (st : MonState) : MonState × List Ev :=
  let st0 := { st with fastPayload := setKey st.fastPayload "script" inp.scriptVal }
  let r1 := if slowDue then publishSlowStep cfg smartVals st0 else (st0, [])
  let r2 := publishFastStep cfg inp r1.1
  let r3 := updateDiskMapping cfg scan pathExists r2.1
  (r3.1, r1.2 ++ r2.2 ++ r3.2)

/-! ## Concrete sample instances (used to evaluate the theorems on
    closed inputs) -/

/-- A default configuration: nothing ignored, one interface. -/
def sampleCfg : Config :=
  { deviceId := "host", ignoreSensors := [], ignoreDisksForSmart := [],
    ignoreDisksForTemp := [], ignoreDisksForStatus := [], ignoreDisksForUsage := [],
    ignoreDisksForInfo := [], ifsName := ["eth0"], dryRun := false }

/-- A configuration whose usage/status ignore lists name serial `S1`
    and whose SMART ignore list names `S2`. -/
def cfgC7 : Config :=
  { sampleCfg with ignoreDisksForSmart := ["S2"], ignoreDisksForStatus := ["S1"],
                   ignoreDisksForUsage := ["S1"] }

/-- The startup state: all caches empty. -/
def emptySt : MonState :=
  { diskSerialMapping := [], blockToSerial := [], diskPathMapping := [],
    fastPayload := [], slowPayload := [], rootDisk := "/dev/sda", rootBlock := "/dev/sda1" }

/-- A state that already knows one disk of serial `S1`. -/
def stOneDisk : MonState :=
  { emptySt with diskSerialMapping := [("S1", "/dev/sda")] }

/-- One scanned SATA disk, serial `S1`, at `/dev/sda`. -/
def sampleDev : LsblkDev :=
  { name := "sda", serial := "S1", tran := "sata", size := "100G", model := "M" }

/-- Trivial fast-cycle inputs: every probe failed or returned nothing. -/
def sampleInputs : FastInputs :=
  { cpuTempVal := JVal.null, memVal := JVal.null, iostat := none, coresFreq := [],
    netReadings := fun _ => none, lsblkFs := none, hdparm := none,
    scriptVal := JVal.null }

/-! ## Helper lemmas: strings -/

theorem strExt {s t : String} (h : s.data = t.data) : s = t := by
  cases s; cases t; exact congrArg String.mk h

theorem dataAppend (s t : String) : (s ++ t).data = s.data ++ t.data := by
  cases s; cases t; rfl

theorem appendEqImpIsPre :
    ∀ (A B s t : List Char), A ++ s = B ++ t → isPre A B = true ∨ isPre B A = true
  | [], _, _, _, _ => Or.inl rfl
  | (_ :: _), [], _, _, _ => Or.inr rfl
  | (a :: as), (b :: bs), s, t, h => by
      simp only [List.cons_append, List.cons.injEq] at h
      rcases appendEqImpIsPre as bs s t h.2 with hh | hh
      · exact Or.inl (by simp [isPre, h.1, hh])
      · exact Or.inr (by simp [isPre, h.1.symm, hh])

/-- Two appends with literal heads that are not prefixes of one another
    are distinct, whatever the tails. -/
theorem strAppendNe (a b s t : String) (h1 : isPre a.data b.data = false)
    (h2 : isPre b.data a.data = false) : a ++ s ≠ b ++ t := by
  intro he
  have hd : a.data ++ s.data = b.data ++ t.data := by
    rw [← dataAppend, ← dataAppend, he]
  rcases appendEqImpIsPre a.data b.data s.data t.data hd with h | h
  · rw [h1] at h; exact Bool.noConfusion h
  · rw [h2] at h; exact Bool.noConfusion h

theorem strAppendEmpty (b : String) : b ++ "" = b := by
  apply strExt; rw [dataAppend]; simp

/-- An append with a literal head cannot equal an unrelated literal. -/
theorem strAppendNeLit (a b s : String) (h1 : isPre a.data b.data = false)
    (h2 : isPre b.data a.data = false) : a ++ s ≠ b := by
  intro he
  exact strAppendNe a b s "" h1 h2 (he.trans (strAppendEmpty b).symm)

theorem strAppendLeftCancel {a s t : String} (h : a ++ s = a ++ t) : s = t := by
  have hd : a.data ++ s.data = a.data ++ t.data := by
    rw [← dataAppend, ← dataAppend, h]
  exact strExt (List.append_cancel_left hd)

/-- Same literal head, distinct tails: distinct keys. -/
theorem strAppendNeOfNeTail {pre s se : String} (hne : s ≠ se) : pre ++ s ≠ pre ++ se :=
  fun h => hne (strAppendLeftCancel h)

/-! ## Helper lemmas: dict operations -/

theorem getKey_setKey_ne {p : Payload} {k k' : String} {v : JVal} (h : k ≠ k') :
    getKey (setKey p k' v) k = getKey p k := by
  have h' : ¬ k' = k := fun hh => h hh.symm
  induction p with
  | nil => simp [setKey, getKey, h']
  | cons e rest ih =>
      by_cases hek : e.1 = k'
      · simp [setKey, hek, getKey, h']
      · simp only [setKey, hek, ite_false]
        simp only [getKey, ih]

theorem getS_mem {m : List (String × String)} {k v : String} (h : getS m k = some v) :
    (k, v) ∈ m := by
  induction m with
  | nil => simp [getS] at h
  | cons e rest ih =>
      cases e with
      | mk a b =>
        by_cases hek : a = k
        · simp only [getS] at h
          rw [if_pos hek] at h
          have hb := Option.some.inj h
          subst hek; subst hb
          exact List.mem_cons_self _ _
        · simp only [getS] at h
          rw [if_neg hek] at h
          exact List.mem_cons_of_mem _ (ih h)

theorem keysOf_subset_setKey (p : Payload) (k : String) (v : JVal) :
    keysOf p ⊆ keysOf (setKey p k v) := by
  induction p with
  | nil => intro x hx; simp [keysOf] at hx
  | cons e rest ih =>
      by_cases hek : e.1 = k
      · simp only [setKey, hek, if_pos, keysOf, List.map_cons]
        intro x hx
        simpa [hek] using hx
      · simp only [setKey, hek, ite_false, keysOf, List.map_cons]
        intro x hx
        rcases List.mem_cons.mp hx with h | h
        · exact List.mem_cons.mpr (Or.inl h)
        · exact List.mem_cons.mpr (Or.inr (ih h))

theorem keysOf_subset_foldl {α : Type} (step : Payload → α → Payload)
    (hstep : ∀ acc e, keysOf acc ⊆ keysOf (step acc e)) :
    ∀ (l : List α) (p : Payload), keysOf p ⊆ keysOf (l.foldl step p) := by
  intro l
  induction l with
  | nil => intro p; exact List.Subset.refl _
  | cons e t ih => intro p; exact (hstep p e).trans (ih (step p e))

theorem getKey_foldl_eq {α : Type} (step : Payload → α → Payload) (k : String) :
    ∀ (l : List α), (∀ acc e, e ∈ l → getKey (step acc e) k = getKey acc k) →
      ∀ p, getKey (l.foldl step p) k = getKey p k := by
  intro l
  induction l with
  | nil => intro _ p; rfl
  | cons e t ih =>
      intro h p
      calc getKey (List.foldl step (step p e) t) k
          = getKey (step p e) k :=
            ih (fun acc x hx => h acc x (List.mem_cons_of_mem e hx)) (step p e)
        _ = getKey p k := h p e (List.mem_cons_self e t)

/-! ## Helper lemmas: which keys each extractor writes -/

theorem getKey_updateCpuTemperature_ne {v : JVal} {p : Payload} {k : String}
    (h : k ≠ "cpu_temp") : getKey (updateCpuTemperature v p) k = getKey p k :=
  getKey_setKey_ne h

theorem getKey_updateCpuFreq_ne {cf : List Int} {p : Payload} {k : String}
    (h : k ≠ "cpu_freq") : getKey (updateCpuFreq cf p) k = getKey p k := by
  unfold updateCpuFreq
  split <;> exact getKey_setKey_ne h

theorem getKey_updateIostatData_ne {parsed : Option IostatParsed}
    {m : List (String × String)} {p : Payload} {k : String}
    (h1 : k ≠ "cpu_avg") (h2 : ∀ e ∈ m, k ≠ "disk_io_" ++ e.1) :
    getKey (updateIostatData parsed m p) k = getKey p k := by
  cases parsed with
  | none => rfl
  | some d =>
      calc getKey (List.foldl (iostatStep d.diskData) (setKey p "cpu_avg" d.cpuAvg) m) k
          = getKey (setKey p "cpu_avg" d.cpuAvg) k := by
            apply getKey_foldl_eq
            intro acc e he
            unfold iostatStep
            split
            · rfl
            · cases hgk : getKey d.diskData (basename e.2) with
              | none => rfl
              | some io => exact getKey_setKey_ne (h2 e he)
        _ = getKey p k := getKey_setKey_ne h1

theorem getKey_updateNetworkSensors_ne {rd : String → Option JVal} {ifs : List String}
    {p : Payload} {k : String} (h : ∀ ifn ∈ ifs, k ≠ publishNetStatsKey ifn) :
    getKey (updateNetworkSensors rd ifs p) k = getKey p k := by
  apply getKey_foldl_eq
  intro acc ifn hin
  unfold netStep
  cases rd ifn with
  | none => rfl
  | some v => exact getKey_setKey_ne (h ifn hin)

theorem getKey_updateDiskUsage_ne {parsed : Option (List FsBlock)}
    {b2s : List (String × String)} {p : Payload} {k : String}
    (h : ∀ se, (se = "unknown" ∨ ∃ bp, (bp, se) ∈ b2s) → k ≠ "disk_usage_" ++ se) :
    getKey (updateDiskUsage parsed b2s p) k = getKey p k := by
  cases parsed with
  | none => rfl
  | some blocks =>
      apply getKey_foldl_eq
      intro acc b _
      unfold diskUsageStep
      cases hgs : getS b2s ("/dev/" ++ b.name) with
      | none => exact getKey_setKey_ne (h "unknown" (Or.inl rfl))
      | some se => exact getKey_setKey_ne (h se (Or.inr ⟨_, getS_mem hgs⟩))

theorem getKey_updateDiskStatus_ne {pm : List (String × String)}
    {parsed : Option (List (String × String))} {p : Payload} {k : String}
    (h : ∀ se, (se = "unknown" ∨ ∃ dp, (dp, se) ∈ pm) → k ≠ "disk_status_" ++ se) :
    getKey (updateDiskStatus pm parsed p) k = getKey p k := by
  unfold updateDiskStatus
  split
  · rfl
  · cases parsed with
    | none => rfl
    | some entries =>
        apply getKey_foldl_eq
        intro acc e _
        unfold diskStatusStep
        cases hgs : getS pm e.1 with
        | none => exact getKey_setKey_ne (h "unknown" (Or.inl rfl))
        | some se => exact getKey_setKey_ne (h se (Or.inr ⟨_, getS_mem hgs⟩))

theorem getKey_publishSlowSensors_ne {cfg : Config} {sv : String → JVal}
    {m : List (String × String)} {slow : Payload} {k : String}
    (h : ∀ e ∈ m, k ≠ "disk_smart_" ++ e.1) :
    getKey (publishSlowSensors cfg sv m slow) k = getKey slow k := by
  apply getKey_foldl_eq
  intro acc e he
  unfold slowStep
  split
  · exact getKey_setKey_ne (h e he)
  · rfl

/-- Master preservation lemma for the whole fast publish step: a key
    distinct from everything the fast-tier extractors write is left
    untouched. -/
theorem getKey_publishFastSensors_ne {cfg : Config} {inp : FastInputs}
    {m b2s pm : List (String × String)} {fast : Payload} {k : String}
    (hct : k ≠ "cpu_temp") (hmu : k ≠ "mem_usage") (hca : k ≠ "cpu_avg")
    (hcf : k ≠ "cpu_freq")
    (hio : ∀ e ∈ m, k ≠ "disk_io_" ++ e.1)
    (hnet : ∀ ifn ∈ cfg.ifsName, k ≠ publishNetStatsKey ifn)
    (hdu : ∀ se, (se = "unknown" ∨ ∃ bp, (bp, se) ∈ b2s) → k ≠ "disk_usage_" ++ se)
    (hds : ∀ se, (se = "unknown" ∨ ∃ dp, (dp, se) ∈ pm) → k ≠ "disk_status_" ++ se) :
    getKey (publishFastSensors cfg inp m b2s pm fast) k = getKey fast k := by
  unfold publishFastSensors
  rw [getKey_updateDiskStatus_ne hds, getKey_updateDiskUsage_ne hdu,
      getKey_updateNetworkSensors_ne hnet, getKey_updateCpuFreq_ne hcf,
      getKey_updateIostatData_ne hca hio]
  split
  · split
    · rfl
    · exact getKey_updateCpuTemperature_ne hct
  · rw [getKey_setKey_ne hmu]
    split
    · rfl
    · exact getKey_updateCpuTemperature_ne hct

theorem keysOf_subset_updateIostatData (parsed : Option IostatParsed)
    (m : List (String × String)) (p : Payload) :
    keysOf p ⊆ keysOf (updateIostatData parsed m p) := by
  cases parsed with
  | none => exact List.Subset.refl _
  | some d =>
      refine (keysOf_subset_setKey p "cpu_avg" d.cpuAvg).trans ?_
      apply keysOf_subset_foldl
      intro acc e
      unfold iostatStep
      split
      · exact List.Subset.refl _
      · cases getKey d.diskData (basename e.2) with
        | none => exact List.Subset.refl _
        | some io => exact keysOf_subset_setKey acc _ io

theorem keysOf_subset_updateCpuFreq (cf : List Int) (p : Payload) :
    keysOf p ⊆ keysOf (updateCpuFreq cf p) := by
  unfold updateCpuFreq
  split <;> exact keysOf_subset_setKey p _ _

theorem keysOf_subset_updateNetworkSensors (rd : String → Option JVal)
    (ifs : List String) (p : Payload) :
    keysOf p ⊆ keysOf (updateNetworkSensors rd ifs p) := by
  apply keysOf_subset_foldl
  intro acc ifn
  unfold netStep
  cases rd ifn with
  | none => exact List.Subset.refl _
  | some v => exact keysOf_subset_setKey acc _ v

theorem keysOf_subset_updateDiskUsage (parsed : Option (List FsBlock))
    (b2s : List (String × String)) (p : Payload) :
    keysOf p ⊆ keysOf (updateDiskUsage parsed b2s p) := by
  cases parsed with
  | none => exact List.Subset.refl _
  | some blocks =>
      apply keysOf_subset_foldl
      intro acc b
      exact keysOf_subset_setKey acc _ _

theorem keysOf_subset_updateDiskStatus (pm : List (String × String))
    (parsed : Option (List (String × String))) (p : Payload) :
    keysOf p ⊆ keysOf (updateDiskStatus pm parsed p) := by
  unfold updateDiskStatus
  split
  · exact List.Subset.refl _
  · cases parsed with
    | none => exact List.Subset.refl _
    | some entries =>
        apply keysOf_subset_foldl
        intro acc e
        exact keysOf_subset_setKey acc _ _

theorem keysOf_subset_publishFastSensors (cfg : Config) (inp : FastInputs)
    (m b2s pm : List (String × String)) (fast : Payload) :
    keysOf fast ⊆ keysOf (publishFastSensors cfg inp m b2s pm fast) := by
  unfold publishFastSensors
  refine List.Subset.trans ?_ (keysOf_subset_updateDiskStatus _ _ _)
  refine List.Subset.trans ?_ (keysOf_subset_updateDiskUsage _ _ _)
  refine List.Subset.trans ?_ (keysOf_subset_updateNetworkSensors _ _ _)
  refine List.Subset.trans ?_ (keysOf_subset_updateCpuFreq _ _)
  refine List.Subset.trans ?_ (keysOf_subset_updateIostatData _ _ _)
  have hstep1 : keysOf fast ⊆ keysOf (if "cpu_temp" ∈ cfg.ignoreSensors then fast
      else updateCpuTemperature inp.cpuTempVal fast) := by
    split
    · exact List.Subset.refl _
    · exact keysOf_subset_setKey fast _ _
  refine List.Subset.trans hstep1 ?_
  split <;> split <;>
    first
      | exact List.Subset.refl _
      | exact keysOf_subset_setKey _ _ _

theorem keysOf_subset_publishSlowSensors (cfg : Config) (sv : String → JVal)
    (m : List (String × String)) (slow : Payload) :
    keysOf slow ⊆ keysOf (publishSlowSensors cfg sv m slow) := by
  apply keysOf_subset_foldl
  intro acc e
  unfold slowStep
  split
  · exact keysOf_subset_setKey acc _ _
  · exact List.Subset.refl _

/-! ## Helper lemmas: inventory scan branches -/

theorem filter_not_mem_eq_nil {ns os : List String} (h : ∀ s, s ∈ ns → s ∈ os) :
    ns.filter (fun s => decide (s ∉ os)) = [] := by
  induction ns with
  | nil => rfl
  | cons a t ih =>
      have ha : a ∈ os := h a (List.mem_cons_self a t)
      simp only [List.filter_cons]
      rw [if_neg (by simpa using ha)]
      exact ih (fun s hs => h s (List.mem_cons_of_mem a hs))

theorem mem_addedSerials {ns os : List String} {s : String}
    (h1 : s ∈ ns) (h2 : s ∉ os) : s ∈ addedSerials ns os :=
  List.mem_filter.mpr ⟨h1, by simpa using h2⟩

theorem mem_removedSerials {ns os : List String} {s : String}
    (h1 : s ∈ os) (h2 : s ∉ ns) : s ∈ removedSerials ns os :=
  List.mem_filter.mpr ⟨h1, by simpa using h2⟩

/-- The changed branch of `update_disk_mapping` spelled out. -/
theorem updateDiskMapping_changed (cfg : Config) (devs : List LsblkDev)
    (pathExists : String → Bool) (st : MonState)
    (h : addedSerials (keysOf (scanFold pathExists devs).1) (keysOf st.diskSerialMapping) ≠ []
       ∨ removedSerials (keysOf (scanFold pathExists devs).1) (keysOf st.diskSerialMapping) ≠ []) :
    updateDiskMapping cfg (.parsed devs) pathExists st =
      ({ st with diskSerialMapping := (scanFold pathExists devs).1,
                 diskPathMapping := (scanFold pathExists devs).2,
                 blockToSerial := buildBlockToSerial (scanFold pathExists devs).1
                   st.rootDisk st.rootBlock },
       .discovery (discoveryCmpKeys cfg (scanFold pathExists devs).1)
         :: (if cfg.dryRun then [] else [.settleSleep 5]) ++ [.diskInfoPublish]) := by
  simp only [updateDiskMapping]
  rw [if_pos h]

/-- The unchanged branch of `update_disk_mapping` spelled out. -/
theorem updateDiskMapping_unchanged (cfg : Config) (devs : List LsblkDev)
    (pathExists : String → Bool) (st : MonState)
    (h : ∀ s, s ∈ keysOf (scanFold pathExists devs).1 ↔ s ∈ keysOf st.diskSerialMapping) :
    updateDiskMapping cfg (.parsed devs) pathExists st =
      ({ st with blockToSerial := [], diskPathMapping := (scanFold pathExists devs).2 },
       []) := by
  have hadd : addedSerials (keysOf (scanFold pathExists devs).1)
      (keysOf st.diskSerialMapping) = [] :=
    filter_not_mem_eq_nil (fun s hs => (h s).mp hs)
  have hrem : removedSerials (keysOf (scanFold pathExists devs).1)
      (keysOf st.diskSerialMapping) = [] :=
    filter_not_mem_eq_nil (fun s hs => (h s).mpr hs)
  simp only [updateDiskMapping]
  rw [if_neg]
  rw [hadd, hrem]
  simp

/-- `update_disk_mapping` never touches the tier payloads. -/
theorem updateDiskMapping_payloads (cfg : Config) (scan : ScanResult)
    (pathExists : String → Bool) (st : MonState) :
    (updateDiskMapping cfg scan pathExists st).1.fastPayload = st.fastPayload ∧
    (updateDiskMapping cfg scan pathExists st).1.slowPayload = st.slowPayload := by
  cases scan with
  | noOutput => exact ⟨rfl, rfl⟩
  | parseFailed => exact ⟨rfl, rfl⟩
  | parsed devs =>
      simp only [updateDiskMapping]
      split <;> exact ⟨rfl, rfl⟩

/-! ## Claim theorems -/

/-- C9: the partition-suffix stripping applied at startup to the
    mounted-root block source maps `/dev/sda1` to `/dev/sda`,
    `/dev/nvme0n1p1` to `/dev/nvme0n1`, and `/dev/mmcblk0p1` to
    `/dev/mmcblk0`. -/
theorem C9_root_suffix_strip :
    stripPartSuffix "/dev/sda1" = "/dev/sda" ∧
    stripPartSuffix "/dev/nvme0n1p1" = "/dev/nvme0n1" ∧
    stripPartSuffix "/dev/mmcblk0p1" = "/dev/mmcblk0" :=
  ⟨by decide, by decide, by decide⟩

/-- C8: every percentage computation with a zero denominator (memory or
    swap total = 0, or filesystem used = free = 0) yields exactly 0 —
    never a division error, NaN or infinity (the computation lives in
    ℚ, which has neither). -/
theorem C8_zero_denominator_yields_zero :
    (∀ used : Int, memUsageField used 0 = 0) ∧
    (∀ used : Int, swapUsageField used 0 = 0) ∧
    diskUsagePercent 0 0 = 0 := by
  refine ⟨fun used => ?_, fun used => ?_, ?_⟩
  · simp [memUsageField, memUsagePercentRaw, pyRound, bankersRound]
  · simp [swapUsageField, swapUsagePercentRaw, pyRound, bankersRound]
  · simp [diskUsagePercent]

/-- C4 counterexample: the probe runner does NOT return a typed failure
    distinguishing timeout from non-zero exit from tool-not-found — a
    timeout and a non-zero exit both return the bare empty string (the
    two results are literally equal, so no reason is carried), and a
    missing tool raises `FileNotFoundError` past the caller instead of
    returning a failure value. -/
theorem C4_cex :
    runCommand .timedOut = .ok "" ∧
    runCommand (.completed 1 "stdout text" "stderr text") = .ok "" ∧
    runCommand .timedOut = runCommand (.completed 1 "stdout text" "stderr text") ∧
    runCommand .toolMissing = .error .fileNotFoundError :=
  ⟨rfl, rfl, rfl, rfl⟩

/-- C4 (amended): `run_command` returns the stripped stdout on exit 0
    and otherwise the empty string on non-zero exit, timeout or other
    `SubprocessError` — without distinguishing the reason; the variant
    `run_command_accept_error` behaves the same on timeout; a missing
    executable raises `FileNotFoundError`, which the `except` clauses
    do not catch, so it propagates past the caller.  (The timeout bound
    itself is enforced inside `subprocess.run` and is not modelled.) -/
theorem C4_amended :
    (∀ (rc : Int) (out err : String), rc ≠ 0 →
      runCommand (.completed rc out err) = .ok "") ∧
    runCommand .timedOut = .ok "" ∧
    runCommand .subprocessErr = .ok "" ∧
    runCommandAcceptError .timedOut = .ok "" ∧
    runCommandAcceptError .subprocessErr = .ok "" ∧
    runCommand .toolMissing = .error .fileNotFoundError ∧
    runCommandAcceptError .toolMissing = .error .fileNotFoundError := by
  refine ⟨?_, rfl, rfl, rfl, rfl, rfl, rfl⟩
  intro rc out err h
  simp [runCommand, h]

/-- C4 witness: the amended theorem evaluated at exit code 2. -/
theorem C4_amended_witness :
    runCommand (.completed 2 "o" "e") = .ok "" ∧ runCommand .timedOut = .ok "" :=
  ⟨C4_amended.1 2 "o" "e" (by decide), C4_amended.2.1⟩

/-- C1 counterexample: when the iostat probe fails entirely, the fast
    batch does NOT contain `cpu_avg` or `disk_io_<serial>` entries with
    default values — starting from an empty payload with one mapped
    disk of serial `S1`, both keys are absent after the extractor
    runs. -/
theorem C1_cex :
    getKey (updateIostatData none [("S1", "/dev/sda")] []) "cpu_avg" = none ∧
    getKey (updateIostatData none [("S1", "/dev/sda")] []) "disk_io_S1" = none :=
  ⟨rfl, rfl⟩

/-- C1 (amended): on total probe failure or structurally unparseable
    output, the iostat, disk-usage and disk-status extractors return
    with the fast payload unchanged — no default `MetricSample` is
    inserted, so the corresponding keys are absent on the first cycle
    and stale afterwards (extractors such as CPU temperature, memory
    and SMART do insert typed defaults on failure, but these three do
    not). -/
theorem C1_amended :
    (∀ (mapping : List (String × String)) (fast : Payload),
      updateIostatData none mapping fast = fast) ∧
    (∀ (b2s : List (String × String)) (fast : Payload),
      updateDiskUsage none b2s fast = fast) ∧
    (∀ (pm : List (String × String)) (fast : Payload),
      updateDiskStatus pm none fast = fast) := by
  refine ⟨fun _ _ => rfl, fun _ _ => rfl, fun pm fast => ?_⟩
  unfold updateDiskStatus
  split <;> rfl

/-- C3: for every inventory scan whose resulting serial set is
    identical to the previous cycle's, the discovery document is not
    republished and no settling delay occurs before the next cycle —
    the scan emits no events at all (and keeps the previous mapping). -/
theorem C3_unchanged_scan_silent (cfg : Config) (devs : List LsblkDev)
    (pathExists : String → Bool) (st : MonState)
    (h : ∀ s, s ∈ keysOf (scanFold pathExists devs).1 ↔ s ∈ keysOf st.diskSerialMapping) :
    (updateDiskMapping cfg (.parsed devs) pathExists st).2 = [] ∧
    (updateDiskMapping cfg (.parsed devs) pathExists st).1.diskSerialMapping
      = st.diskSerialMapping := by
  rw [updateDiskMapping_unchanged cfg devs pathExists st h]
  exact ⟨rfl, rfl⟩

/-- C3 witness: a rescan that finds the one already-known disk `S1`
    publishes nothing. -/
theorem C3_witness :
    (updateDiskMapping sampleCfg (.parsed [sampleDev]) (fun _ => true) stOneDisk).2 = [] ∧
    (updateDiskMapping sampleCfg (.parsed [sampleDev]) (fun _ => true)
       stOneDisk).1.diskSerialMapping = stOneDisk.diskSerialMapping :=
  C3_unchanged_scan_silent sampleCfg [sampleDev] (fun _ => true) stOneDisk
    (fun _ => Iff.rfl)

/-- C5 counterexample: an empty topology scan (`blockdevices: []`) at
    startup (previous inventory empty, so the serial set is unchanged)
    produces NO discovery publish at all — not "a discovery document
    with zero disk entities" as the claim asserts. -/
theorem C5_cex :
    (updateDiskMapping sampleCfg (.parsed []) (fun _ => true) emptySt).2 = [] :=
  rfl

/-- C5 (amended): an empty topology scan yields an inventory with zero
    devices and leaves the batch payloads untouched (so no disk key is
    added to any batch); a discovery document is republished only when
    the serial set changed — i.e. only when the previous inventory was
    nonempty — and that document registers zero disk entities; when the
    previous inventory was already empty, no discovery document and no
    settling delay is produced at all. -/
theorem C5_amended (cfg : Config) (pathExists : String → Bool) (st : MonState) :
    ((updateDiskMapping cfg (.parsed []) pathExists st).1.diskSerialMapping = [] ∧
     (updateDiskMapping cfg (.parsed []) pathExists st).1.fastPayload = st.fastPayload ∧
     (updateDiskMapping cfg (.parsed []) pathExists st).1.slowPayload = st.slowPayload) ∧
    (st.diskSerialMapping = [] →
      (updateDiskMapping cfg (.parsed []) pathExists st).2 = []) ∧
    (st.diskSerialMapping ≠ [] →
      (updateDiskMapping cfg (.parsed []) pathExists st).2
        = .discovery (hostComponents cfg ++ netComponents cfg)
            :: (if cfg.dryRun then [] else [.settleSleep 5]) ++ [.diskInfoPublish] ∧
      diskComponents cfg [] = []) := by
  cases hm : st.diskSerialMapping with
  | nil =>
      have h := updateDiskMapping_unchanged cfg [] pathExists st
        (by intro s; rw [hm]; exact Iff.rfl)
      rw [h]
      refine ⟨⟨hm, rfl, rfl⟩, fun _ => rfl, fun hne => absurd rfl hne⟩
  | cons e rest =>
      have hrem : e.1 ∈ removedSerials (keysOf ((scanFold pathExists []).1))
          (keysOf st.diskSerialMapping) := by
        apply mem_removedSerials
        · rw [hm]; exact List.mem_cons_self _ _
        · intro hc; simp [scanFold, keysOf] at hc
      have h := updateDiskMapping_changed cfg [] pathExists st
        (Or.inr (List.ne_nil_of_mem hrem))
      rw [h]
      refine ⟨⟨rfl, rfl, rfl⟩, fun hnil => absurd hnil (by simp), fun _ => ⟨?_, rfl⟩⟩
      have hck : discoveryCmpKeys cfg (scanFold pathExists []).1
          = hostComponents cfg ++ netComponents cfg := by
        simp [discoveryCmpKeys, diskComponents, scanFold]
      rw [hck]

/-- C5 witness: the amended theorem evaluated at a state knowing one
    disk (serial set shrinks to empty: discovery with zero disk
    entities) and the conclusion for the startup state. -/
theorem C5_amended_witness :
    (updateDiskMapping sampleCfg (.parsed []) (fun _ => true)
       stOneDisk).1.diskSerialMapping = [] ∧
    (updateDiskMapping sampleCfg (.parsed []) (fun _ => true) stOneDisk).2
      = .discovery (hostComponents sampleCfg ++ netComponents sampleCfg)
          :: (if sampleCfg.dryRun then [] else [.settleSleep 5]) ++ [.diskInfoPublish] ∧
    (updateDiskMapping sampleCfg (.parsed []) (fun _ => true) emptySt).2 = [] := by
  have h1 := C5_amended sampleCfg (fun _ => true) stOneDisk
  have h2 := C5_amended sampleCfg (fun _ => true) emptySt
  exact ⟨h1.1.1, (h1.2.2 (by decide)).1, h2.2.1 (by decide)⟩

/-- C6: the key addressed by the discovery value templates for a
    network interface does NOT in general equal the key the fast batch
    publishes: `setup_discovery` sanitises the interface name by
    replacing `-`, ` ` and `@` with `_`, while `update_network_sensors`
    replaces only `.`.  For interface `br-lan` the registered template
    reads `net_stats_br_lan` but the batch publishes
    `net_stats_br-lan`; for `eth0.100` the template reads
    `net_stats_eth0.100` but the batch publishes `net_stats_eth0_100`.
    This theorem evaluates the code at those failing inputs. -/
theorem C6_net_key_mismatch :
    discoveryNetStatsKey "br-lan" = "net_stats_br_lan" ∧
    publishNetStatsKey "br-lan" = "net_stats_br-lan" ∧
    discoveryNetStatsKey "br-lan" ≠ publishNetStatsKey "br-lan" ∧
    getKey (updateNetworkSensors (fun _ => some JVal.null) ["br-lan"] [])
      "net_stats_br_lan" = none ∧
    (getKey (updateNetworkSensors (fun _ => some JVal.null) ["br-lan"] [])
      "net_stats_br-lan").isSome = true ∧
    discoveryNetStatsKey "eth0.100" = "net_stats_eth0.100" ∧
    publishNetStatsKey "eth0.100" = "net_stats_eth0_100" ∧
    discoveryNetStatsKey "eth0.100" ≠ publishNetStatsKey "eth0.100" ∧
    discoveryNetStatsKey "eth0" = publishNetStatsKey "eth0" :=
  ⟨by decide, by decide, by decide, rfl, rfl, by decide, by decide, by decide, by decide⟩

/-- C7: the per-family per-device ignore lists are NOT all honored.
    The SMART list is: a serial in `ignore_disks_for_smart` gets no
    SMART discovery entity and no slow-batch `disk_smart_` key.  But
    `ignore_disks_for_usage` and `ignore_disks_for_status` are loaded
    and never consulted: with serial `S1` in both, the discovery
    document still registers `host_disk_usage_S1` and
    `host_disk_status_S1`, and the fast batch still publishes
    `disk_usage_S1`.  This theorem evaluates the code at that failing
    configuration. -/
theorem C7_ignore_lists_unused :
    "S1" ∈ cfgC7.ignoreDisksForUsage ∧
    "S1" ∈ cfgC7.ignoreDisksForStatus ∧
    cfgC7.deviceId ++ "_disk_usage_S1" ∈ discoveryCmpKeys cfgC7 [("S1", "/dev/sda")] ∧
    cfgC7.deviceId ++ "_disk_status_S1" ∈ discoveryCmpKeys cfgC7 [("S1", "/dev/sda")] ∧
    (getKey (updateDiskUsage
        (some [{ name := "sda1", fsused := 10, fsavail := 90, fssize := 100,
                 mountpoint := "/", fstype := "ext4", size := "100G" }])
        [("/dev/sda1", "S1")] []) "disk_usage_S1").isSome = true ∧
    "S2" ∈ cfgC7.ignoreDisksForSmart ∧
    cfgC7.deviceId ++ "_disk_smart_S2" ∉ discoveryCmpKeys cfgC7 [("S2", "/dev/sdb")] ∧
    getKey (publishSlowSensors cfgC7 (fun _ => JVal.null) [("S2", "/dev/sdb")] [])
      "disk_smart_S2" = none :=
  ⟨by decide, by decide, by decide, by decide, rfl, by decide, by decide, rfl⟩

/-- C2: for every inventory scan in which the serial set changes (at
    least one addition or removal), in normal (non-dry-run) operation
    the discovery document is republished exactly once, the new
    inventory is installed, and in the event trace of the scan followed
    by the next loop iteration the discovery publish (index 0) is
    followed by the 5-second settling delay (index 1), both strictly
    before the next fast-tier state publish (index > 1). -/
theorem C2_discovery_before_next_fast
    (cfg : Config) (devs : List LsblkDev) (pathExists : String → Bool) (st : MonState)
    (hch : ∃ s, (s ∈ keysOf (scanFold pathExists devs).1 ∧
                 s ∉ keysOf st.diskSerialMapping) ∨
                (s ∈ keysOf st.diskSerialMapping ∧
                 s ∉ keysOf (scanFold pathExists devs).1))
    (hdry : cfg.dryRun = false)
    (slowDue : Bool) (inp : FastInputs) (smartVals : String → JVal)
    (scan2 : ScanResult) (pathExists2 : String → Bool) :
    countEv isDiscoveryEv (updateDiskMapping cfg (.parsed devs) pathExists st).2 = 1 ∧
    (updateDiskMapping cfg (.parsed devs) pathExists st).1.diskSerialMapping
      = (scanFold pathExists devs).1 ∧
    firstIdx isDiscoveryEv
      ((updateDiskMapping cfg (.parsed devs) pathExists st).2 ++
       (loopIter cfg slowDue inp smartVals scan2 pathExists2
          (updateDiskMapping cfg (.parsed devs) pathExists st).1).2) = some 0 ∧
    firstIdx isSettleEv
      ((updateDiskMapping cfg (.parsed devs) pathExists st).2 ++
       (loopIter cfg slowDue inp smartVals scan2 pathExists2
          (updateDiskMapping cfg (.parsed devs) pathExists st).1).2) = some 1 ∧
    ∃ fi, firstIdx isFastPublishEv
      ((updateDiskMapping cfg (.parsed devs) pathExists st).2 ++
       (loopIter cfg slowDue inp smartVals scan2 pathExists2
          (updateDiskMapping cfg (.parsed devs) pathExists st).1).2) = some fi ∧
      1 < fi := by
  obtain ⟨s, hs⟩ := hch
  have hcond : addedSerials (keysOf (scanFold pathExists devs).1)
      (keysOf st.diskSerialMapping) ≠ [] ∨
      removedSerials (keysOf (scanFold pathExists devs).1)
        (keysOf st.diskSerialMapping) ≠ [] := by
    rcases hs with ⟨h1, h2⟩ | ⟨h1, h2⟩
    · exact Or.inl (List.ne_nil_of_mem (mem_addedSerials h1 h2))
    · exact Or.inr (List.ne_nil_of_mem (mem_removedSerials h1 h2))
  rw [updateDiskMapping_changed cfg devs pathExists st hcond]
  simp only [hdry, Bool.false_eq_true, if_false]
  refine ⟨rfl, trivial, ?_⟩
  simp only [loopIter, publishFastStep, publishSlowStep]
  cases slowDue with
  | false =>
      refine ⟨rfl, rfl, 3, ?_, by norm_num⟩
      simp [firstIdx, isFastPublishEv, List.cons_append, List.nil_append]
  | true =>
      refine ⟨rfl, rfl, 4, ?_, by norm_num⟩
      simp [firstIdx, isFastPublishEv, List.cons_append, List.nil_append]

/-- C2 witness: the theorem evaluated on the startup scan that first
    discovers disk `S1`, with a slow-tier publish due in the next
    iteration. -/
theorem C2_witness :
    countEv isDiscoveryEv
      (updateDiskMapping sampleCfg (.parsed [sampleDev]) (fun _ => true) emptySt).2 = 1 ∧
    (updateDiskMapping sampleCfg (.parsed [sampleDev]) (fun _ => true)
       emptySt).1.diskSerialMapping = (scanFold (fun _ => true) [sampleDev]).1 ∧
    firstIdx isDiscoveryEv
      ((updateDiskMapping sampleCfg (.parsed [sampleDev]) (fun _ => true) emptySt).2 ++
       (loopIter sampleCfg true sampleInputs (fun _ => JVal.null) .noOutput (fun _ => true)
          (updateDiskMapping sampleCfg (.parsed [sampleDev]) (fun _ => true) emptySt).1).2)
      = some 0 ∧
    firstIdx isSettleEv
      ((updateDiskMapping sampleCfg (.parsed [sampleDev]) (fun _ => true) emptySt).2 ++
       (loopIter sampleCfg true sampleInputs (fun _ => JVal.null) .noOutput (fun _ => true)
          (updateDiskMapping sampleCfg (.parsed [sampleDev]) (fun _ => true) emptySt).1).2)
      = some 1 ∧
    ∃ fi, firstIdx isFastPublishEv
      ((updateDiskMapping sampleCfg (.parsed [sampleDev]) (fun _ => true) emptySt).2 ++
       (loopIter sampleCfg true sampleInputs (fun _ => JVal.null) .noOutput (fun _ => true)
          (updateDiskMapping sampleCfg (.parsed [sampleDev]) (fun _ => true) emptySt).1).2)
      = some fi ∧ 1 < fi :=
  C2_discovery_before_next_fast sampleCfg [sampleDev] (fun _ => true) emptySt
    ⟨"S1", Or.inl ⟨by decide, by decide⟩⟩ rfl true sampleInputs (fun _ => JVal.null)
    .noOutput (fun _ => true)

/-- C10: the tier payload dictionaries only accumulate.  Between two
    consecutive fast publishes the payload is transformed by the
    inventory rescan (which never touches the payloads), the `script`
    self-observation entry and `publish_fast_sensors`; the key set can
    only grow, and for a serial `s` absent from the current inventory
    maps (and distinct from the `"unknown"` fallback) the keys
    `disk_io_s`, `disk_usage_s`, `disk_status_s` keep their previous
    values.  Likewise the slow batch only grows and keeps
    `disk_smart_s` for removed serials. -/
theorem C10_batches_accumulate :
    (∀ (cfg : Config) (scan : ScanResult) (pathExists : String → Bool) (st : MonState),
      (updateDiskMapping cfg scan pathExists st).1.fastPayload = st.fastPayload ∧
      (updateDiskMapping cfg scan pathExists st).1.slowPayload = st.slowPayload) ∧
    (∀ (cfg : Config) (inp : FastInputs) (m b2s pm : List (String × String))
       (fast : Payload) (sv : JVal),
      keysOf fast ⊆
        keysOf (publishFastSensors cfg inp m b2s pm (setKey fast "script" sv))) ∧
    (∀ (cfg : Config) (sv : String → JVal) (m : List (String × String)) (slow : Payload),
      keysOf slow ⊆ keysOf (publishSlowSensors cfg sv m slow)) ∧
    (∀ (cfg : Config) (inp : FastInputs) (m b2s pm : List (String × String))
       (fast : Payload) (sv : JVal) (s : String),
      s ∉ keysOf m → (∀ e ∈ b2s, s ≠ e.2) → (∀ e ∈ pm, s ≠ e.2) → s ≠ "unknown" →
      getKey (publishFastSensors cfg inp m b2s pm (setKey fast "script" sv))
          ("disk_io_" ++ s) = getKey fast ("disk_io_" ++ s) ∧
      getKey (publishFastSensors cfg inp m b2s pm (setKey fast "script" sv))
          ("disk_usage_" ++ s) = getKey fast ("disk_usage_" ++ s) ∧
      getKey (publishFastSensors cfg inp m b2s pm (setKey fast "script" sv))
          ("disk_status_" ++ s) = getKey fast ("disk_status_" ++ s)) ∧
    (∀ (cfg : Config) (sv : String → JVal) (m : List (String × String))
       (slow : Payload) (s : String),
      s ∉ keysOf m →
      getKey (publishSlowSensors cfg sv m slow) ("disk_smart_" ++ s)
        = getKey slow ("disk_smart_" ++ s)) := by
  refine ⟨updateDiskMapping_payloads, ?_, ?_, ?_, ?_⟩
  · intro cfg inp m b2s pm fast sv
    exact (keysOf_subset_setKey fast "script" sv).trans
      (keysOf_subset_publishFastSensors cfg inp m b2s pm _)
  · intro cfg sv m slow
    exact keysOf_subset_publishSlowSensors cfg sv m slow
  · intro cfg inp m b2s pm fast sv s hm hb2s hpm hunk
    have hio_m : ∀ e ∈ m, ("disk_io_" ++ s) ≠ "disk_io_" ++ e.1 := by
      intro e he
      refine strAppendNeOfNeTail (fun hse => hm ?_)
      rw [hse]
      exact List.mem_map.mpr ⟨e, he, rfl⟩
    have husage : ∀ se, (se = "unknown" ∨ ∃ bp, (bp, se) ∈ b2s) →
        ("disk_usage_" ++ s) ≠ "disk_usage_" ++ se := by
      intro se hse
      refine strAppendNeOfNeTail ?_
      rcases hse with h | ⟨bp, hmem⟩
      · rw [h]; exact hunk
      · exact hb2s (bp, se) hmem
    have hstatus : ∀ se, (se = "unknown" ∨ ∃ dp, (dp, se) ∈ pm) →
        ("disk_status_" ++ s) ≠ "disk_status_" ++ se := by
      intro se hse
      refine strAppendNeOfNeTail ?_
      rcases hse with h | ⟨dp, hmem⟩
      · rw [h]; exact hunk
      · exact hpm (dp, se) hmem
    refine ⟨?_, ?_, ?_⟩
    · rw [getKey_publishFastSensors_ne
        (strAppendNeLit "disk_io_" "cpu_temp" s (by decide) (by decide))
        (strAppendNeLit "disk_io_" "mem_usage" s (by decide) (by decide))
        (strAppendNeLit "disk_io_" "cpu_avg" s (by decide) (by decide))
        (strAppendNeLit "disk_io_" "cpu_freq" s (by decide) (by decide))
        hio_m
        (fun ifn _ => strAppendNe "disk_io_" "net_stats_" s _ (by decide) (by decide))
        (fun se _ => strAppendNe "disk_io_" "disk_usage_" s se (by decide) (by decide))
        (fun se _ => strAppendNe "disk_io_" "disk_status_" s se (by decide) (by decide))]
      exact getKey_setKey_ne (strAppendNeLit "disk_io_" "script" s (by decide) (by decide))
    · rw [getKey_publishFastSensors_ne
        (strAppendNeLit "disk_usage_" "cpu_temp" s (by decide) (by decide))
        (strAppendNeLit "disk_usage_" "mem_usage" s (by decide) (by decide))
        (strAppendNeLit "disk_usage_" "cpu_avg" s (by decide) (by decide))
        (strAppendNeLit "disk_usage_" "cpu_freq" s (by decide) (by decide))
        (fun e _ => strAppendNe "disk_usage_" "disk_io_" s _ (by decide) (by decide))
        (fun ifn _ => strAppendNe "disk_usage_" "net_stats_" s _ (by decide) (by decide))
        husage
        (fun se _ => strAppendNe "disk_usage_" "disk_status_" s se (by decide) (by decide))]
      exact getKey_setKey_ne
        (strAppendNeLit "disk_usage_" "script" s (by decide) (by decide))
    · rw [getKey_publishFastSensors_ne
        (strAppendNeLit "disk_status_" "cpu_temp" s (by decide) (by decide))
        (strAppendNeLit "disk_status_" "mem_usage" s (by decide) (by decide))
        (strAppendNeLit "disk_status_" "cpu_avg" s (by decide) (by decide))
        (strAppendNeLit "disk_status_" "cpu_freq" s (by decide) (by decide))
        (fun e _ => strAppendNe "disk_status_" "disk_io_" s _ (by decide) (by decide))
        (fun ifn _ => strAppendNe "disk_status_" "net_stats_" s _ (by decide) (by decide))
        (fun se _ => strAppendNe "disk_status_" "disk_usage_" s se (by decide) (by decide))
        hstatus]
      exact getKey_setKey_ne
        (strAppendNeLit "disk_status_" "script" s (by decide) (by decide))
  · intro cfg sv m slow s hm
    apply getKey_publishSlowSensors_ne
    intro e he
    refine strAppendNeOfNeTail (fun hse => hm ?_)
    rw [hse]
    exact List.mem_map.mpr ⟨e, he, rfl⟩

/-- C10 witness: with the single current disk `S1`, the stale keys of
    the removed serial `GONE` keep their values through a full fast
    publish, and the slow batch keeps `disk_smart_GONE`. -/
theorem C10_witness :
    ("GONE" ∉ keysOf [("S1", "/dev/sda")]) ∧
    getKey (publishFastSensors sampleCfg sampleInputs [("S1", "/dev/sda")]
        [("/dev/sda1", "S1")] [("/dev/sda", "S1")]
        (setKey [("disk_io_GONE", JVal.null)] "script" JVal.null))
      ("disk_io_" ++ "GONE")
      = getKey [("disk_io_GONE", JVal.null)] ("disk_io_" ++ "GONE") ∧
    getKey (publishSlowSensors sampleCfg (fun _ => JVal.null) [("S1", "/dev/sda")]
        [("disk_smart_GONE", JVal.null)]) ("disk_smart_" ++ "GONE")
      = getKey [("disk_smart_GONE", JVal.null)] ("disk_smart_" ++ "GONE") :=
  ⟨by decide,
   (C10_batches_accumulate.2.2.2.1 sampleCfg sampleInputs [("S1", "/dev/sda")]
      [("/dev/sda1", "S1")] [("/dev/sda", "S1")] [("disk_io_GONE", JVal.null)]
      JVal.null "GONE" (by decide) (by decide) (by decide) (by decide)).1,
   C10_batches_accumulate.2.2.2.2 sampleCfg (fun _ => JVal.null) [("S1", "/dev/sda")]
      [("disk_smart_GONE", JVal.null)] "GONE" (by decide)⟩

end LinuxMqttHa
